import Mathlib

/-!
# Verification of the icinga-lighthouse alarm control loop

Shallow embedding of the core logic of `trelaylaatern.ino` (v4.2, the
first document in the file) together with the GPIO mock of
`test-env/esp32-sim/MockESP.h`.  Pure Lean translations of:

* the GPIO driver (`digitalWrite` / `digitalRead` over the mock's
  `pinStates` map, with a write counter standing for the mock's
  "physical write" log line),
* the relay evaluation `updateRelayLogic`,
* the poller `queryIcingaEndpoint` and the round driver `checkIcinga`,
* the soft data watchdog block of `loop()`,
* the manual-override handler `handleToggle` and the override expiry
  block of `loop()`.

Machine integers (`unsigned long`) are modelled as `Nat`; elapsed-time
computations use the 32-bit wraparound subtraction the C code performs.
Pin levels are `Bool` (`HIGH = true`), since the sketch only ever writes
`RELAY_ON` / `RELAY_OFF` / a logical negation.
-/

/-- Pin numbers, from the `#define`s of the sketch. -/
def RELAY_1_PIN : Nat := 21

def RELAY_2_PIN : Nat := 19

def RELAY_3_PIN : Nat := 18

def RELAY_4_PIN : Nat := 5

/-- `RELAY_ON = HIGH`. -/
def RELAY_ON : Bool := true

/-- `RELAY_OFF = LOW`. -/
def RELAY_OFF : Bool := false

/-- 32-bit unsigned wraparound subtraction `a - b` on `unsigned long`
values (the sketch computes all elapsed times this way). -/
def usub32 (a b : Nat) : Nat :=
  (a + 2 ^ 32 - b % 2 ^ 32) % 2 ^ 32

/-- The GPIO state of the mock (`MockESP.h`): the `pinStates` map
(`std::map<int,int>`, default value 0/LOW) plus a counter of the
physical writes actually performed (the mock logs exactly when it
stores a new value). -/
structure Pins where
  state : Nat → Bool
  writes : Nat

/-- `digitalWrite` of `MockESP.h`: stores and logs only when the new
value differs from the stored one. -/
def digitalWrite (pin : Nat) (val : Bool) (p : Pins) : Pins :=
  if p.state pin ≠ val then
    { state := fun q => if q = pin then val else p.state q
      writes := p.writes + 1 }
  else p

/-- `digitalRead` of `MockESP.h`. -/
def digitalRead (pin : Nat) (p : Pins) : Bool :=
  p.state pin

/-- `enum AlarmState` of the sketch. -/
inductive AlarmState where
  | STATE_IDLE
  | STATE_INITIAL_ALARM
  | STATE_COOLDOWN
  | STATE_REMINDER_ALARM
  deriving DecidableEq, Repr

open AlarmState

/-- The timing configuration globals of the sketch. -/
structure Config where
  init_alarm_duration_ms : Nat
  reminder_interval_ms : Nat
  reminder_duration_ms : Nat
  watchdog_timeout_ms : Nat

/-- The sketch's default timing values. -/
def defaultConfig : Config :=
  { init_alarm_duration_ms := 30000
    reminder_interval_ms := 300000
    reminder_duration_ms := 15000
    watchdog_timeout_ms := 60000 }

/-- The mutable globals of the sketch that the alarm control loop reads
and writes. -/
structure Sys where
  pins : Pins
  current_state : AlarmState
  state_start_time : Nat
  is_alarm_active : Bool
  is_network_error : Bool
  manual_override_active : Bool
  last_manual_action_time : Nat
  last_successful_data_time : Nat
  last_connection_status : String
  icinga_reachable : Bool
  last_icinga_object_name : String
  icinga_url_svc : String
  icinga_url_host : String

/-- The state right after `setup()`: all relays driven OFF, state
machine in `STATE_IDLE`, no manual override, flags at their global
initialisers. -/
def bootState : Sys :=
  { pins := { state := fun _ => false, writes := 0 }
    current_state := STATE_IDLE
    state_start_time := 0
    is_alarm_active := false
    is_network_error := false
    manual_override_active := false
    last_manual_action_time := 0
    last_successful_data_time := 0
    last_connection_status := "STARTUP"
    icinga_reachable := false
    last_icinga_object_name := "None"
    icinga_url_svc := "https://192.168.1.100:5665/v1/objects/services?filter=service.state==2"
    icinga_url_host := "https://192.168.1.100:5665/v1/objects/hosts?filter=host.state!=0" }

/-- `updateRelayLogic()` of the sketch (lines 416-469), at time
`now = millis()`. -/
def updateRelayLogic (cfg : Config) (now : Nat) (s : Sys) : Sys :=
  if s.manual_override_active then s
  else
    let p := digitalWrite RELAY_2_PIN RELAY_OFF s.pins
    let p := digitalWrite RELAY_3_PIN RELAY_OFF p
    let p := digitalWrite RELAY_4_PIN RELAY_OFF p
    if s.is_network_error then
      let p :=
        if digitalRead RELAY_1_PIN p = RELAY_ON then
          digitalWrite RELAY_1_PIN RELAY_OFF p
        else p
      { s with pins := p }
    else
      let elapsed := usub32 now s.state_start_time
      match s.current_state with
      | STATE_IDLE =>
        if s.is_alarm_active then
          { s with pins := digitalWrite RELAY_1_PIN RELAY_ON p
                   current_state := STATE_INITIAL_ALARM
                   state_start_time := now }
        else { s with pins := p }
      | STATE_INITIAL_ALARM =>
        if ¬ s.is_alarm_active then
          { s with pins := digitalWrite RELAY_1_PIN RELAY_OFF p
                   current_state := STATE_IDLE }
        else if elapsed ≥ cfg.init_alarm_duration_ms then
          { s with pins := digitalWrite RELAY_1_PIN RELAY_OFF p
                   current_state := STATE_COOLDOWN
                   state_start_time := now }
        else { s with pins := p }
      | STATE_COOLDOWN =>
        if ¬ s.is_alarm_active then
          { s with pins := p, current_state := STATE_IDLE }
        else if elapsed ≥ cfg.reminder_interval_ms then
          { s with pins := digitalWrite RELAY_1_PIN RELAY_ON p
                   current_state := STATE_REMINDER_ALARM
                   state_start_time := now }
        else { s with pins := p }
      | STATE_REMINDER_ALARM =>
        if ¬ s.is_alarm_active then
          { s with pins := digitalWrite RELAY_1_PIN RELAY_OFF p
                   current_state := STATE_IDLE }
        else if elapsed ≥ cfg.reminder_duration_ms then
          { s with pins := digitalWrite RELAY_1_PIN RELAY_OFF p
                   current_state := STATE_COOLDOWN
                   state_start_time := now }
        else { s with pins := p }

/-- One element of the parsed `results` array, restricted to the fields
the sketch's ArduinoJson filter keeps: `name` and
`attrs.display_name` (absent fields are `none`). -/
structure ResultEntry where
  name : Option String
  display_name : Option String

/-- The outcome of one HTTP exchange as seen by
`queryIcingaEndpoint`: whether `http.begin` succeeded, the code
returned by `http.GET()` (negative on timeout / transport failure),
and the parse outcome of the body (`none` models a
`DeserializationError`, `some results` the filtered `results`
array). -/
structure HttpResponse where
  beginOk : Bool
  httpCode : Int
  body : Option (List ResultEntry)

/-- ArduinoJson's `x | y | "Unknown"` fallback chain used on the first
result. -/
def firstResultName (r : ResultEntry) : String :=
  r.display_name.getD (r.name.getD "Unknown")

/-- `queryIcingaEndpoint(url, typeName)` of the sketch (lines 321-384),
with the HTTP exchange's outcome `resp` and `millis() = nowMs` passed
explicitly.  Returns the updated globals and the function's boolean
result (`true` = alarm active on this endpoint). -/
def queryIcingaEndpoint (url typeName : String) (resp : HttpResponse)
    (nowMs : Nat) (s : Sys) : Sys × Bool :=
  if url = "" then (s, false)
  else if ¬ resp.beginOk then
    ({ s with last_connection_status := "Conn Fail (" ++ typeName ++ ")"
              icinga_reachable := false }, false)
  else if resp.httpCode = 200 then
    let s := { s with icinga_reachable := true
                      last_successful_data_time := nowMs
                      is_network_error := false
                      last_connection_status := "OK (200)" }
    match resp.body with
    | some results =>
      match results with
      | r :: _ =>
        ({ s with last_icinga_object_name :=
                    typeName ++ ": " ++ firstResultName r }, true)
      | [] => (s, false)
    | none => (s, false)
  else
    ({ s with last_connection_status := "HTTP " ++ toString resp.httpCode
              icinga_reachable := false }, false)

/-- `checkIcinga()` of the sketch (lines 303-316), with the two
endpoints' HTTP outcomes passed explicitly.  The second component is
observational instrumentation recording whether the host endpoint was
queried at all on this round (in the simulator this is visible as the
`[HTTP] GET` log line). -/
def checkIcingaQ (nowMs : Nat) (svcResp hostResp : HttpResponse)
    (s : Sys) : Sys × Bool :=
  let q1 := queryIcingaEndpoint s.icinga_url_svc "Service" svcResp nowMs s
  let service_alarm := q1.2
  let hostQueried := ¬ service_alarm ∧ s.icinga_url_host.length > 5
  let q2 :=
    if ¬ service_alarm ∧ s.icinga_url_host.length > 5 then
      queryIcingaEndpoint q1.1.icinga_url_host "Host" hostResp nowMs q1.1
    else (q1.1, false)
  let host_alarm := q2.2
  let total_alarm := service_alarm || host_alarm
  let s2 :=
    if total_alarm ≠ q2.1.is_alarm_active then
      { q2.1 with is_alarm_active := total_alarm
                  last_icinga_object_name :=
                    if ¬ total_alarm then "None"
                    else q2.1.last_icinga_object_name }
    else q2.1
  (s2, decide hostQueried)

/-- `checkIcinga()` proper: just the state effect. -/
def checkIcinga (nowMs : Nat) (svcResp hostResp : HttpResponse)
    (s : Sys) : Sys :=
  (checkIcingaQ nowMs svcResp hostResp s).1

/-- The soft-watchdog block of `loop()` (lines 239-247). -/
def softWatchdog (cfg : Config) (now : Nat) (s : Sys) : Sys :=
  if usub32 now s.last_successful_data_time > cfg.watchdog_timeout_ms then
    if ¬ s.is_network_error then
      { s with is_network_error := true
               last_connection_status := "Data Timeout"
               is_alarm_active := false
               icinga_reachable := false }
    else s
  else s

/-- The manual-override expiry block of `loop()` (lines 216-220):
clears the override 60 s after the last manual action. -/
def overrideExpiry (now : Nat) (s : Sys) : Sys :=
  if s.manual_override_active then
    if usub32 now s.last_manual_action_time > 60000 then
      { s with manual_override_active := false }
    else s
  else s

/-- `handleToggle()` of the sketch (lines 515-535), for an already
authenticated request with `r = server.arg("r").toInt()` and
`millis() = now`.  The redirect response is not modelled. -/
def handleToggle (r : Int) (now : Nat) (s : Sys) : Sys :=
  if r = 0 then { s with manual_override_active := false }
  else
    let s1 := { s with manual_override_active := true
                       last_manual_action_time := now }
    let pin : Int :=
      if r = 1 then 21
      else if r = 2 then 19
      else if r = 3 then 18
      else if r = 4 then 5
      else -1
    if pin ≠ -1 then
      let st := digitalRead pin.toNat s1.pins
      { s1 with pins := digitalWrite pin.toNat (!st) s1.pins }
    else s1

/-- One tick's worth of inputs to the relay evaluation: the current
`millis()` value and the flag values (`is_alarm_active`,
`is_network_error`) established by the poller / watchdog before
`updateRelayLogic` runs. -/
structure TickInput where
  now : Nat
  alarm : Bool
  fault : Bool

/-- Feed one tick's flags to the globals and run `updateRelayLogic`. -/
def relayTick (cfg : Config) (inp : TickInput) (s : Sys) : Sys :=
  updateRelayLogic cfg inp.now
    { s with is_alarm_active := inp.alarm, is_network_error := inp.fault }

/-- Run a whole sequence of per-tick relay evaluations. -/
def runRelay (cfg : Config) (inputs : List TickInput) (s : Sys) : Sys :=
  inputs.foldl (fun t i => relayTick cfg i t) s

/-- Inductive invariant for the relay traces: manual override stays
off, and the siren pin can only be HIGH in one of the two alarm-phase
states with no fault flagged. -/
def RelayInv (s : Sys) : Prop :=
  s.manual_override_active = false ∧
  (s.pins.state RELAY_1_PIN = true →
    (s.current_state = STATE_INITIAL_ALARM ∨
     s.current_state = STATE_REMINDER_ALARM) ∧
    s.is_network_error = false)

/-- Transition-table outcome, as the spec's table phrases it: next
state, siren relay value, and `state_start_time`. -/
structure TableRes where
  to_state : AlarmState
  relay1 : Bool
  start : Nat

/-- The spec's section 4.3 transition table, written from its words
(for the refinement claim about the state machine): rows for
`Idle`/`InitialAlarm`/`Cooldown`/`ReminderAlarm`, guarded by
`alarm_present` and the elapsed time against the configured
durations; any row not matched leaves state, timer and relay-1
unchanged. -/
def specAlarmTable (cfg : Config) (now : Nat) (st : AlarmState)
    (relay1 : Bool) (start : Nat) (alarm : Bool) : TableRes :=
  let elapsed := usub32 now start
  match st with
  | STATE_IDLE =>
    if alarm then ⟨STATE_INITIAL_ALARM, true, now⟩
    else ⟨st, relay1, start⟩
  | STATE_INITIAL_ALARM =>
    if ¬ alarm then ⟨STATE_IDLE, false, start⟩
    else if elapsed ≥ cfg.init_alarm_duration_ms then
      ⟨STATE_COOLDOWN, false, now⟩
    else ⟨st, relay1, start⟩
  | STATE_COOLDOWN =>
    if ¬ alarm then ⟨STATE_IDLE, relay1, start⟩
    else if elapsed ≥ cfg.reminder_interval_ms then
      ⟨STATE_REMINDER_ALARM, true, now⟩
    else ⟨st, relay1, start⟩
  | STATE_REMINDER_ALARM =>
    if ¬ alarm then ⟨STATE_IDLE, false, start⟩
    else if elapsed ≥ cfg.reminder_duration_ms then
      ⟨STATE_COOLDOWN, false, now⟩
    else ⟨st, relay1, start⟩

/-- A reachable state with manual override active, a fault flagged and
the siren ON (reachable by toggling relay 1 manually and then losing
the data feed). -/
def overrideFaultSys : Sys :=
  { bootState with
      manual_override_active := true
      is_network_error := true
      pins := { state := fun q => q == RELAY_1_PIN, writes := 1 } }

/-- A mid-escalation state: `STATE_INITIAL_ALARM` entered at time 0,
siren ON, alarm still present. -/
def initAlarmSys : Sys :=
  { bootState with
      current_state := STATE_INITIAL_ALARM
      state_start_time := 0
      is_alarm_active := true
      pins := { state := fun q => q == RELAY_1_PIN, writes := 1 } }

/-- HTTP 200 whose body fails JSON deserialization. -/
def badJsonResp : HttpResponse :=
  { beginOk := true, httpCode := 200, body := none }

/-- A stale, already-faulted system (watchdog has tripped). -/
def staleFaultSys : Sys :=
  { bootState with is_network_error := true }

/-- HTTP 200 with a well-formed body and an empty `results` array. -/
def cleanSvcResp : HttpResponse :=
  { beginOk := true, httpCode := 200, body := some [] }

/-- HTTP 200 with a well-formed body and one result (an alarm). -/
def alarmHostResp : HttpResponse :=
  { beginOk := true, httpCode := 200
    body := some [{ name := some "h1", display_name := some "Host One" }] }

/-- A configuration whose host-endpoint URL is non-empty but at most 5
characters long. -/
def shortHostSys : Sys :=
  { bootState with icinga_url_host := "abc" }

/-- The input trace for the transient-fault scenario: alarm raised at
t = 0, a one-tick fault at t = 1000, fault cleared at t = 2000 with the
alarm still present. -/
def transientFaultInputs : List TickInput :=
  [{ now := 0, alarm := true, fault := false },
   { now := 1000, alarm := true, fault := true },
   { now := 2000, alarm := true, fault := false }]

theorem digitalWrite_state_self (pin : Nat) (v : Bool) (p : Pins) :
    (digitalWrite pin v p).state pin = v := by
  unfold digitalWrite
  by_cases h : p.state pin = v <;> simp [h]

theorem digitalWrite_state_of_ne (pin q : Nat) (v : Bool) (p : Pins)
    (h : q ≠ pin) : (digitalWrite pin v p).state q = p.state q := by
  unfold digitalWrite
  by_cases h2 : p.state pin = v <;> simp [h2, h]

/-- Writing the spare relays OFF does not move the siren pin. -/
theorem spare_writes_keep_relay1 (p : Pins) :
    (digitalWrite RELAY_4_PIN false
      (digitalWrite RELAY_3_PIN false
        (digitalWrite RELAY_2_PIN false p))).state RELAY_1_PIN
      = p.state RELAY_1_PIN := by
  rw [digitalWrite_state_of_ne, digitalWrite_state_of_ne,
      digitalWrite_state_of_ne]
  · decide
  · decide
  · decide

/-- Writing a value the pin already holds is a no-op on the mock. -/
theorem digitalWrite_noop (pin : Nat) (v : Bool) (p : Pins)
    (h : p.state pin = v) : digitalWrite pin v p = p := by
  unfold digitalWrite
  simp [h]

/-- Claim C9: the mock output driver is idempotent — issuing the same
logical value to the same pin twice in a row leaves the pin map and
the physical-write counter exactly where the first call left them
(no duplicate hardware write). -/
theorem digitalWrite_idempotent (pin : Nat) (v : Bool) (p : Pins) :
    digitalWrite pin v (digitalWrite pin v p) = digitalWrite pin v p ∧
    (digitalWrite pin v (digitalWrite pin v p)).writes
      = (digitalWrite pin v p).writes := by
  have h : digitalWrite pin v (digitalWrite pin v p) = digitalWrite pin v p :=
    digitalWrite_noop pin v (digitalWrite pin v p)
      (digitalWrite_state_self pin v p)
  exact ⟨h, by rw [h]⟩

/-- Claim C2, counterexample: in a state with manual override active, a
fault flagged and the siren ON, the relay evaluation returns with the
siren still ON — so the fault check is NOT applied before (or
regardless of) the manual-override check. -/
theorem fault_check_not_first :
    overrideFaultSys.is_network_error = true ∧
    overrideFaultSys.pins.state RELAY_1_PIN = RELAY_ON ∧
    (updateRelayLogic defaultConfig 0 overrideFaultSys).pins.state
      RELAY_1_PIN = RELAY_ON := by
  decide

/-- Claim C2 (amended): the manual-override check runs first and, when
override is active, suspends the whole evaluation (fault silencing
included); only when override is inactive does an active fault force
relay-1 OFF and return without touching `current_state`,
`state_start_time` or `is_alarm_active`, independent of elapsed
time; the transition table runs only when neither applies. -/
theorem updateRelayLogic_check_order (cfg : Config) (now : Nat) (s : Sys) :
    (s.manual_override_active = true → updateRelayLogic cfg now s = s) ∧
    (s.manual_override_active = false → s.is_network_error = true →
      (updateRelayLogic cfg now s).pins.state RELAY_1_PIN = RELAY_OFF ∧
      (updateRelayLogic cfg now s).current_state = s.current_state ∧
      (updateRelayLogic cfg now s).state_start_time = s.state_start_time ∧
      (updateRelayLogic cfg now s).is_alarm_active = s.is_alarm_active) := by
  constructor
  · intro h
    unfold updateRelayLogic
    simp [h]
  · intro h hf
    unfold updateRelayLogic digitalRead
    cases hb : s.pins.state RELAY_1_PIN <;>
      simp [h, hf, hb, spare_writes_keep_relay1, digitalWrite_state_self,
            RELAY_ON, RELAY_OFF]

/-- Claim C2 witness: concrete evaluations — override suspends the
evaluation even while faulted, and without override a fault forces the
siren OFF leaving the state machine untouched. -/
theorem updateRelayLogic_check_order_witness :
    updateRelayLogic defaultConfig 0 overrideFaultSys = overrideFaultSys ∧
    (updateRelayLogic defaultConfig 0 staleFaultSys).pins.state RELAY_1_PIN
      = RELAY_OFF ∧
    (updateRelayLogic defaultConfig 0 staleFaultSys).current_state
      = staleFaultSys.current_state :=
  ⟨(updateRelayLogic_check_order defaultConfig 0 overrideFaultSys).1 rfl,
   ((updateRelayLogic_check_order defaultConfig 0 staleFaultSys).2 rfl rfl).1,
   ((updateRelayLogic_check_order defaultConfig 0 staleFaultSys).2 rfl rfl).2.1⟩

/-- Claim C8: the soft watchdog's transition into the faulted state is
edge-triggered — while `is_network_error` is already set the block
writes nothing at all, and on a stale tick with `is_network_error`
still clear it performs exactly the fault side effects. -/
theorem softWatchdog_edge_triggered (cfg : Config) (now : Nat) (s : Sys) :
    (s.is_network_error = true → softWatchdog cfg now s = s) ∧
    (s.is_network_error = false →
      usub32 now s.last_successful_data_time > cfg.watchdog_timeout_ms →
      softWatchdog cfg now s =
        { s with is_network_error := true
                 last_connection_status := "Data Timeout"
                 is_alarm_active := false
                 icinga_reachable := false }) := by
  constructor
  · intro h
    unfold softWatchdog
    simp [h]
  · intro h hs
    unfold softWatchdog
    simp [h, hs]

/-- Claim C8 witness: a tick 61 s after the last successful poll trips
the watchdog from the clear state and is a no-op from the faulted
state. -/
theorem softWatchdog_edge_triggered_witness :
    softWatchdog defaultConfig 61000 staleFaultSys = staleFaultSys ∧
    softWatchdog defaultConfig 61000 bootState =
      { bootState with is_network_error := true
                       last_connection_status := "Data Timeout"
                       is_alarm_active := false
                       icinga_reachable := false } :=
  ⟨(softWatchdog_edge_triggered defaultConfig 61000 staleFaultSys).1 rfl,
   (softWatchdog_edge_triggered defaultConfig 61000 bootState).2 rfl
     (by decide)⟩

/-- Claim C5: a poll attempt that fails to connect or returns any
non-200 HTTP code (timeouts surface as negative codes) leaves
`last_successful_data_time` untouched and reports no alarm — failed
attempts never postpone a watchdog fault. -/
theorem query_failure_keeps_success_time (url typeName : String)
    (resp : HttpResponse) (nowMs : Nat) (s : Sys)
    (h : resp.beginOk = false ∨ resp.httpCode ≠ 200) :
    (queryIcingaEndpoint url typeName resp nowMs s).1.last_successful_data_time
      = s.last_successful_data_time ∧
    (queryIcingaEndpoint url typeName resp nowMs s).2 = false := by
  unfold queryIcingaEndpoint
  rcases h with h | h
  · by_cases hu : url = "" <;> simp [hu, h]
  · by_cases hu : url = "" <;> by_cases hb : resp.beginOk <;>
      simp [hu, hb, h]

/-- Claim C5 witness: a connection failure and an HTTP 500 both leave
the staleness clock of the boot state at 0. -/
theorem query_failure_keeps_success_time_witness :
    (queryIcingaEndpoint "https://x" "Service"
        { beginOk := false, httpCode := 0, body := none } 5
        bootState).1.last_successful_data_time
      = bootState.last_successful_data_time ∧
    (queryIcingaEndpoint "https://x" "Service"
        { beginOk := true, httpCode := 500, body := none } 5
        bootState).1.last_successful_data_time
      = bootState.last_successful_data_time :=
  ⟨(query_failure_keeps_success_time "https://x" "Service"
      { beginOk := false, httpCode := 0, body := none } 5 bootState
      (Or.inl rfl)).1,
   (query_failure_keeps_success_time "https://x" "Service"
      { beginOk := true, httpCode := 500, body := none } 5 bootState
      (Or.inr (by decide))).1⟩

/-- Claim C6: on an HTTP 200 with a well-formed body, the poller
reports an alarm exactly when the parsed `results` array is non-empty,
and in that case records the first result's `attrs.display_name` (or
`name`, or `Unknown`) as the object name. -/
theorem query_ok_alarm_iff_nonempty (url typeName : String)
    (results : List ResultEntry) (nowMs : Nat) (s : Sys)
    (hu : url ≠ "") :
    (queryIcingaEndpoint url typeName
        { beginOk := true, httpCode := 200, body := some results }
        nowMs s).2
      = !results.isEmpty ∧
    (∀ r rest, results = r :: rest →
      (queryIcingaEndpoint url typeName
          { beginOk := true, httpCode := 200, body := some results }
          nowMs s).1.last_icinga_object_name
        = typeName ++ ": " ++ firstResultName r) := by
  unfold queryIcingaEndpoint
  cases results with
  | nil => simp [hu]
  | cons r rest =>
    constructor
    · simp [hu]
    · intro r2 rest2 he
      obtain ⟨he1, he2⟩ := List.cons.injEq r rest r2 rest2 ▸ he
      simp [hu, he1]

/-- Claim C6 witness: a 200 with one result reports an alarm named
after its `display_name`; a 200 with an empty `results` array reports
none. -/
theorem query_ok_alarm_iff_nonempty_witness :
    (queryIcingaEndpoint "https://x" "Host"
        { beginOk := true, httpCode := 200
          body := some [{ name := some "h1", display_name := some "Host One" }] }
        5 bootState).2 = true ∧
    (queryIcingaEndpoint "https://x" "Host"
        { beginOk := true, httpCode := 200
          body := some [{ name := some "h1", display_name := some "Host One" }] }
        5 bootState).1.last_icinga_object_name = "Host: Host One" ∧
    (queryIcingaEndpoint "https://x" "Host"
        { beginOk := true, httpCode := 200, body := some [] }
        5 bootState).2 = false := by
  refine ⟨?_, ?_, ?_⟩
  · have h := (query_ok_alarm_iff_nonempty "https://x" "Host"
      [{ name := some "h1", display_name := some "Host One" }] 5 bootState
      (by decide)).1
    rw [h]; decide
  · have h := (query_ok_alarm_iff_nonempty "https://x" "Host"
      [{ name := some "h1", display_name := some "Host One" }] 5 bootState
      (by decide)).2 { name := some "h1", display_name := some "Host One" }
      [] rfl
    rw [h]; decide
  · have h := (query_ok_alarm_iff_nonempty "https://x" "Host"
      ([] : List ResultEntry) 5 bootState (by decide)).1
    rw [h]; decide

/-- Claim C4: evaluation of `queryIcingaEndpoint` at the failing input
— an HTTP 200 whose body is unparseable JSON.  Contrary to the claim,
the sketch sets the success markers *before* parsing: the call
advances `last_successful_data_time` to the current time and clears
`is_network_error`, while still returning no alarm.  A sustained
stream of such responses therefore keeps feeding the staleness
watchdog instead of eventually tripping it. -/
theorem query_200_malformed_sets_success_markers :
    staleFaultSys.is_network_error = true ∧
    (queryIcingaEndpoint "https://x" "Service" badJsonResp 777
        staleFaultSys).1.last_successful_data_time = 777 ∧
    (queryIcingaEndpoint "https://x" "Service" badJsonResp 777
        staleFaultSys).1.is_network_error = false ∧
    (queryIcingaEndpoint "https://x" "Service" badJsonResp 777
        staleFaultSys).2 = false := by
  decide

/-- Claim C10: any authenticated `/toggle` with `r` nonzero activates
the manual override and refreshes its expiry timestamp — including
out-of-range indices, which change no relay pin yet still suspend the
automatic relay evaluation (fault silencing included) and keep it
suspended while less than 60 s have elapsed; `r = 0` deactivates the
override without touching any pin or the timestamp. -/
theorem handleToggle_override (r : Int) (now : Nat) (s : Sys)
    (cfg : Config) (now2 : Nat) :
    (r ≠ 0 →
      (handleToggle r now s).manual_override_active = true ∧
      (handleToggle r now s).last_manual_action_time = now ∧
      updateRelayLogic cfg now2 (handleToggle r now s)
        = handleToggle r now s) ∧
    (r ≠ 0 → r ≠ 1 → r ≠ 2 → r ≠ 3 → r ≠ 4 →
      (handleToggle r now s).pins = s.pins) ∧
    (r ≠ 0 → usub32 now2 now ≤ 60000 →
      (overrideExpiry now2 (handleToggle r now s)).manual_override_active
        = true) ∧
    (r = 0 →
      (handleToggle r now s).manual_override_active = false ∧
      (handleToggle r now s).last_manual_action_time
        = s.last_manual_action_time ∧
      (handleToggle r now s).pins = s.pins) := by
  have hover : r ≠ 0 → (handleToggle r now s).manual_override_active = true ∧
      (handleToggle r now s).last_manual_action_time = now := by
    intro h0
    unfold handleToggle
    by_cases h1 : r = 1 <;> by_cases h2 : r = 2 <;> by_cases h3 : r = 3 <;>
      by_cases h4 : r = 4 <;>
      simp_all [digitalRead, digitalWrite]
  refine ⟨?_, ?_, ?_, ?_⟩
  · intro h0
    obtain ⟨ha, hb⟩ := hover h0
    refine ⟨ha, hb, ?_⟩
    unfold updateRelayLogic
    simp [ha]
  · intro h0 h1 h2 h3 h4
    unfold handleToggle
    simp [h0, h1, h2, h3, h4]
  · intro h0 hle
    obtain ⟨ha, hb⟩ := hover h0
    unfold overrideExpiry
    simp [ha, hb, Nat.not_lt.mpr hle]
  · intro h0
    unfold handleToggle
    simp [h0]

/-- Claim C10 witness: `/toggle?r=5` (out of range) activates the
override, stamps the time, changes no pin, suspends the relay
evaluation and survives the expiry check 60 s later; `/toggle?r=0`
deactivates it without touching pins or timestamp. -/
theorem handleToggle_override_witness :
    (handleToggle 5 100 bootState).manual_override_active = true ∧
    (handleToggle 5 100 bootState).last_manual_action_time = 100 ∧
    (handleToggle 5 100 bootState).pins = bootState.pins ∧
    updateRelayLogic defaultConfig 200 (handleToggle 5 100 bootState)
      = handleToggle 5 100 bootState ∧
    (overrideExpiry 60100 (handleToggle 5 100 bootState)).manual_override_active
      = true ∧
    (handleToggle 0 100 bootState).manual_override_active = false ∧
    (handleToggle 0 100 bootState).pins = bootState.pins :=
  ⟨((handleToggle_override 5 100 bootState defaultConfig 200).1
      (by decide)).1,
   ((handleToggle_override 5 100 bootState defaultConfig 200).1
      (by decide)).2.1,
   (handleToggle_override 5 100 bootState defaultConfig 200).2.1
      (by decide) (by decide) (by decide) (by decide) (by decide),
   ((handleToggle_override 5 100 bootState defaultConfig 200).1
      (by decide)).2.2,
   (handleToggle_override 5 100 bootState defaultConfig 60100).2.2.1
      (by decide) (by decide),
   ((handleToggle_override 0 100 bootState defaultConfig 200).2.2.2
      rfl).1,
   ((handleToggle_override 0 100 bootState defaultConfig 200).2.2.2
      rfl).2.2⟩

/-- Claim C7, counterexample: with a non-empty host URL of length ≤ 5
("abc"), a clean service poll and a host endpoint that would report an
alarm, the round never queries the host endpoint and ends with no
alarm — the gate is `length > 5`, not "non-empty". -/
theorem checkIcinga_skips_short_host_url :
    shortHostSys.icinga_url_host ≠ "" ∧
    (queryIcingaEndpoint shortHostSys.icinga_url_svc "Service"
        cleanSvcResp 0 shortHostSys).2 = false ∧
    (checkIcingaQ 0 cleanSvcResp alarmHostResp shortHostSys).2 = false ∧
    (checkIcinga 0 cleanSvcResp alarmHostResp shortHostSys).is_alarm_active
      = false := by
  decide

/-- The final `is_alarm_active` update of `checkIcinga` always lands on
the computed round total, whether or not the flag changed. -/
theorem setAlarm_is_alarm (t : Bool) (s : Sys) (nm : String) :
    (if t ≠ s.is_alarm_active then
        { s with is_alarm_active := t, last_icinga_object_name := nm }
      else s).is_alarm_active = t := by
  split
  · rfl
  · next h =>
    push_neg at h
    exact h.symm

/-- Claim C7 (amended): on each round the host endpoint is queried iff
the service endpoint reported no alarm and the host URL is longer than
5 characters; the round's resulting `is_alarm_active` is the
disjunction of the service result and the host result (the latter
counting as false when the host poll is skipped). -/
theorem checkIcinga_host_gating (nowMs : Nat)
    (svcResp hostResp : HttpResponse) (s : Sys) :
    (checkIcingaQ nowMs svcResp hostResp s).2
      = (!(queryIcingaEndpoint s.icinga_url_svc "Service" svcResp nowMs s).2
          && decide (s.icinga_url_host.length > 5)) ∧
    (checkIcinga nowMs svcResp hostResp s).is_alarm_active
      = ((queryIcingaEndpoint s.icinga_url_svc "Service" svcResp nowMs s).2
          || ((checkIcingaQ nowMs svcResp hostResp s).2
              && (queryIcingaEndpoint
                    (queryIcingaEndpoint s.icinga_url_svc "Service" svcResp
                        nowMs s).1.icinga_url_host
                    "Host" hostResp nowMs
                    (queryIcingaEndpoint s.icinga_url_svc "Service" svcResp
                        nowMs s).1).2)) := by
  constructor
  · unfold checkIcingaQ
    cases hsvc : (queryIcingaEndpoint s.icinga_url_svc "Service" svcResp
        nowMs s).2 <;>
      by_cases hl : s.icinga_url_host.length > 5 <;>
      simp [hsvc, hl]
  · unfold checkIcinga checkIcingaQ
    simp only [setAlarm_is_alarm]
    cases hsvc : (queryIcingaEndpoint s.icinga_url_svc "Service" svcResp
        nowMs s).2 <;>
      by_cases hl : s.icinga_url_host.length > 5 <;>
      simp [hsvc, hl]

/-- Claim C3: with no fault and no manual override pending, one relay
evaluation implements exactly the spec's transition table (row by row,
including the "never earlier" threshold comparisons and the rows that
leave state, timer and relay-1 unchanged), as captured by the
spec-side function `specAlarmTable`. -/
theorem updateRelayLogic_follows_table (cfg : Config) (now : Nat) (s : Sys)
    (h : s.manual_override_active = false)
    (hf : s.is_network_error = false) :
    (updateRelayLogic cfg now s).current_state
      = (specAlarmTable cfg now s.current_state (s.pins.state RELAY_1_PIN)
          s.state_start_time s.is_alarm_active).to_state ∧
    (updateRelayLogic cfg now s).pins.state RELAY_1_PIN
      = (specAlarmTable cfg now s.current_state (s.pins.state RELAY_1_PIN)
          s.state_start_time s.is_alarm_active).relay1 ∧
    (updateRelayLogic cfg now s).state_start_time
      = (specAlarmTable cfg now s.current_state (s.pins.state RELAY_1_PIN)
          s.state_start_time s.is_alarm_active).start := by
  obtain ⟨pins, cs, sst, ia, ine, mo, lmat, lsdt, lcst, ir, lion, us, uh⟩ := s
  simp only at h hf
  subst h
  subst hf
  unfold updateRelayLogic specAlarmTable
  cases cs with
  | STATE_IDLE =>
    cases ia <;>
      simp [spare_writes_keep_relay1, digitalWrite_state_self,
            RELAY_ON, RELAY_OFF]
  | STATE_INITIAL_ALARM =>
    cases ia
    · simp [spare_writes_keep_relay1, digitalWrite_state_self,
            RELAY_ON, RELAY_OFF]
    · by_cases he : usub32 now sst ≥ cfg.init_alarm_duration_ms <;>
        simp [he, spare_writes_keep_relay1, digitalWrite_state_self,
              RELAY_ON, RELAY_OFF]
  | STATE_COOLDOWN =>
    cases ia
    · simp [spare_writes_keep_relay1, digitalWrite_state_self,
            RELAY_ON, RELAY_OFF]
    · by_cases he : usub32 now sst ≥ cfg.reminder_interval_ms <;>
        simp [he, spare_writes_keep_relay1, digitalWrite_state_self,
              RELAY_ON, RELAY_OFF]
  | STATE_REMINDER_ALARM =>
    cases ia
    · simp [spare_writes_keep_relay1, digitalWrite_state_self,
            RELAY_ON, RELAY_OFF]
    · by_cases he : usub32 now sst ≥ cfg.reminder_duration_ms <;>
        simp [he, spare_writes_keep_relay1, digitalWrite_state_self,
              RELAY_ON, RELAY_OFF]

/-- Claim C3 witness: from `STATE_INITIAL_ALARM` entered at t = 0 with
the alarm held, the evaluation at t = 30000 ms moves to cooldown with
the siren OFF, and the evaluation at t = 29999 ms does not. -/
theorem updateRelayLogic_follows_table_witness :
    (updateRelayLogic defaultConfig 30000 initAlarmSys).current_state
      = STATE_COOLDOWN ∧
    (updateRelayLogic defaultConfig 30000 initAlarmSys).pins.state
      RELAY_1_PIN = false ∧
    (updateRelayLogic defaultConfig 29999 initAlarmSys).current_state
      = STATE_INITIAL_ALARM := by
  refine ⟨?_, ?_, ?_⟩
  · have h := (updateRelayLogic_follows_table defaultConfig 30000
      initAlarmSys rfl rfl).1
    rw [h]; decide
  · have h := (updateRelayLogic_follows_table defaultConfig 30000
      initAlarmSys rfl rfl).2.1
    rw [h]; decide
  · have h := (updateRelayLogic_follows_table defaultConfig 29999
      initAlarmSys rfl rfl).1
    rw [h]; decide

/-- One relay tick preserves the siren-safety invariant. -/
theorem relayTick_inv (cfg : Config) (inp : TickInput) (s : Sys)
    (h : RelayInv s) : RelayInv (relayTick cfg inp s) := by
  obtain ⟨hm, hr⟩ := h
  obtain ⟨pins, cs, sst, ia, ine, mo, lmat, lsdt, lcst, ir, lion, us, uh⟩ := s
  simp only at hm hr
  subst hm
  obtain ⟨tnow, talarm, tfault⟩ := inp
  unfold relayTick updateRelayLogic RelayInv
  cases tfault with
  | true =>
    cases hp : pins.state RELAY_1_PIN <;>
      simp [hp, digitalRead, spare_writes_keep_relay1,
            digitalWrite_state_self, RELAY_ON, RELAY_OFF]
  | false =>
    cases cs with
    | STATE_IDLE =>
      cases talarm
      · simp [spare_writes_keep_relay1, digitalWrite_state_self,
              RELAY_ON, RELAY_OFF]
        simpa using hr
      · simp [spare_writes_keep_relay1, digitalWrite_state_self,
              RELAY_ON, RELAY_OFF]
    | STATE_INITIAL_ALARM =>
      cases talarm
      · simp [spare_writes_keep_relay1, digitalWrite_state_self,
              RELAY_ON, RELAY_OFF]
      · by_cases he : usub32 tnow sst ≥ cfg.init_alarm_duration_ms <;>
          simp [he, spare_writes_keep_relay1, digitalWrite_state_self,
                RELAY_ON, RELAY_OFF]
    | STATE_COOLDOWN =>
      cases talarm
      · simp [spare_writes_keep_relay1, digitalWrite_state_self,
              RELAY_ON, RELAY_OFF]
        simpa using hr
      · by_cases he : usub32 tnow sst ≥ cfg.reminder_interval_ms
        · simp [he, spare_writes_keep_relay1, digitalWrite_state_self,
                RELAY_ON, RELAY_OFF]
        · simp [he, spare_writes_keep_relay1, digitalWrite_state_self,
                RELAY_ON, RELAY_OFF]
          simpa using hr
    | STATE_REMINDER_ALARM =>
      cases talarm
      · simp [spare_writes_keep_relay1, digitalWrite_state_self,
              RELAY_ON, RELAY_OFF]
      · by_cases he : usub32 tnow sst ≥ cfg.reminder_duration_ms <;>
          simp [he, spare_writes_keep_relay1, digitalWrite_state_self,
                RELAY_ON, RELAY_OFF]

/-- The siren-safety invariant is preserved along any input trace. -/
theorem runRelay_inv (cfg : Config) (inputs : List TickInput) (s : Sys)
    (h : RelayInv s) : RelayInv (runRelay cfg inputs s) := by
  induction inputs generalizing s with
  | nil => exact h
  | cons i t ih =>
    simpa [runRelay, List.foldl] using ih _ (relayTick_inv cfg i s h)

/-- The boot state satisfies the siren-safety invariant. -/
theorem bootState_inv : RelayInv bootState := by
  constructor
  · rfl
  · intro hp
    exact absurd hp (by decide)

/-- Claim C1 (amended): along every sequence of alarm/fault inputs fed
to the per-tick relay evaluation from the boot state, the siren relay
is ON only while `current_state` is `STATE_INITIAL_ALARM` or
`STATE_REMINDER_ALARM` and no network/data fault is active — never
otherwise.  (The "if and only if" of the original claim fails, see the
counterexample.) -/
theorem relay1_only_in_alarm_states (cfg : Config)
    (inputs : List TickInput)
    (h : (runRelay cfg inputs bootState).pins.state RELAY_1_PIN = true) :
    ((runRelay cfg inputs bootState).current_state = STATE_INITIAL_ALARM ∨
     (runRelay cfg inputs bootState).current_state = STATE_REMINDER_ALARM) ∧
    (runRelay cfg inputs bootState).is_network_error = false :=
  (runRelay_inv cfg inputs bootState bootState_inv).2 h

/-- Claim C1 witness: after the single tick (t = 0, alarm, no fault)
the siren is ON, and the safety theorem places the machine in
`STATE_INITIAL_ALARM` with no fault. -/
theorem relay1_only_in_alarm_states_witness :
    (runRelay defaultConfig [{ now := 0, alarm := true, fault := false }]
        bootState).pins.state RELAY_1_PIN = true ∧
    (((runRelay defaultConfig [{ now := 0, alarm := true, fault := false }]
        bootState).current_state = STATE_INITIAL_ALARM ∨
      (runRelay defaultConfig [{ now := 0, alarm := true, fault := false }]
        bootState).current_state = STATE_REMINDER_ALARM) ∧
     (runRelay defaultConfig [{ now := 0, alarm := true, fault := false }]
        bootState).is_network_error = false) :=
  ⟨by decide,
   relay1_only_in_alarm_states defaultConfig
     [{ now := 0, alarm := true, fault := false }] (by decide)⟩

/-- Claim C1, counterexample to the "if and only if": after alarm at
t = 0, a transient fault at t = 1000 and fault cleared at t = 2000 with
the alarm still present, the machine sits in `STATE_INITIAL_ALARM`
with no fault active — yet the siren relay is OFF. -/
theorem relay1_iff_fails_after_transient_fault :
    (runRelay defaultConfig transientFaultInputs bootState).current_state
      = STATE_INITIAL_ALARM ∧
    (runRelay defaultConfig transientFaultInputs bootState).is_network_error
      = false ∧
    (runRelay defaultConfig transientFaultInputs bootState).pins.state
      RELAY_1_PIN = false := by
  decide
